import Mathlib

/-!
Shallow embedding of `src/ssdhealthmonitor.py` (class `SSDHealthMonitor`).

Python strings are modelled as their character sequences (`PyStr := List
Char`), Python dictionaries as insertion-ordered association lists with
overwrite-on-duplicate-key semantics (`dictInsert`), Python numbers as `ℚ`
(thresholds, percentages, temperatures) and byte counts as `ℕ`.  External
effects (psutil queries, the smartctl subprocess, the clock) are inputs
supplied through an `Env` record; mutation of `self.alerts` is threaded
explicitly as a `List Alert` argument and result.  A Python exception
escaping a function is modelled with `Except`; the error payload carries the
alert list at the moment the exception propagates, since the mutation of
`self.alerts` survives the abort.
-/

deriving instance DecidableEq for Except

namespace SSDHealth

/-- Python strings as character sequences. -/
abbrev PyStr := List Char

/-- Coercion from a Lean string literal to the model of a Python string. -/
def pstr (s : String) : PyStr := s.toList

/-- Does `hay` begin with `pat`? -/
def strStarts : PyStr → PyStr → Bool
  | [], _ => true
  | _ :: _, [] => false
  | c :: ps, h :: hs => c = h && strStarts ps hs

/-- Python `pat in s`: `pat` occurs contiguously inside `s`. -/
def strContains (s pat : PyStr) : Bool :=
  match s with
  | [] => pat.isEmpty
  | _ :: t => strStarts pat s || strContains t pat

/-- Python `s.endswith(pat)`. -/
def strEnds (s pat : PyStr) : Bool :=
  strStarts pat.reverse s.reverse

/-- Python `s.lower()` (ASCII, which covers every keyword the source uses). -/
def strLower (s : PyStr) : PyStr := s.map Char.toLower

/-- Insertion into a Python dict rendered as an association list: replacing an
existing key keeps its original position, a new key is appended at the end. -/
def dictInsert (k : PyStr) (v : α) : List (PyStr × α) → List (PyStr × α)
  | [] => [(k, v)]
  | (k', v') :: rest => if k' = k then (k, v) :: rest else (k', v') :: dictInsert k v rest

/-- Byte counts returned by `psutil.disk_usage` for one mountpoint. -/
structure UsageStat where
  total : ℕ
  used : ℕ
  free : ℕ
deriving DecidableEq

/-- Outcome of `psutil.disk_usage(partition.mountpoint)`: statistics, or the
`PermissionError` the source catches. -/
inductive UsageQuery where
  | stat (u : UsageStat)
  | permissionDenied
deriving DecidableEq

/-- One entry of `psutil.disk_partitions()`, bundled with what querying its
mountpoint returns in this run. -/
structure Partition where
  device : PyStr
  mountpoint : PyStr
  query : UsageQuery
deriving DecidableEq

/-- `n / 1024**3`: byte count as gigabytes. -/
def gb (n : ℕ) : ℚ := (n : ℚ) / (1024 ^ 3)

/-- Python `round(x, d)` on the rational model: scale, round to an integer,
scale back.  (CPython rounds ties to even on floats; the tie-breaking
direction is irrelevant to every property proved below.) -/
def roundTo (d : ℕ) (x : ℚ) : ℚ := (round (x * 10 ^ d) : ℚ) / 10 ^ d

/-- The per-device value stored in the `disk_usage` dict
(lines 62-68 of the source). -/
structure VolumeEntry where
  mountpoint : PyStr
  total_gb : ℚ
  used_gb : ℚ
  free_gb : ℚ
  percent_used : ℚ
deriving DecidableEq

/-- The alert strings appended to `self.alerts`, kept as structured data: the
constructor records which f-string built the message and the fields record the
interpolated values (device, reading, threshold), which determine the string.
`usageFull` renders its percentage with one decimal in the actual message. -/
inductive Alert where
  | usageFull (device : PyStr) (percent : ℚ) (threshold : ℚ)
  | overTemp (sensorName : PyStr) (temp : ℚ) (threshold : ℚ)
  | smartFailed (drivePath : PyStr)
deriving DecidableEq

/-- Source category of an alert. -/
inductive AlertCategory where
  | usage
  | temperature
  | smart
deriving DecidableEq

/-- The collector an alert originates from, read off from which f-string
built it. -/
def Alert.category : Alert → AlertCategory
  | .usageFull .. => .usage
  | .overTemp .. => .temperature
  | .smartFailed .. => .smart

/-- The `for partition in partitions` loop of `get_disk_usage` (lines 57-79).
`usage.used / usage.total` with `total = 0` raises `ZeroDivisionError`, which
no `except` clause catches, so the loop aborts: modelled as `Except.error`
carrying the alerts accumulated so far.  `PermissionError` skips the volume
and continues. -/
def processPartitions (uth : ℚ) :
    List Partition → List (PyStr × VolumeEntry) → List Alert →
      Except (List Alert) (List (PyStr × VolumeEntry) × List Alert)
  | [], du, alerts => .ok (du, alerts)
  | p :: rest, du, alerts =>
    match p.query with
    | .permissionDenied => processPartitions uth rest du alerts
    | .stat u =>
      if u.total = 0 then .error alerts
      else
        let percent : ℚ := ((u.used : ℚ) / (u.total : ℚ)) * 100
        let entry : VolumeEntry :=
          { mountpoint := p.mountpoint
            total_gb := roundTo 2 (gb u.total)
            used_gb := roundTo 2 (gb u.used)
            free_gb := roundTo 2 (gb u.free)
            percent_used := roundTo 1 percent }
        let alerts' :=
          if percent > uth then alerts ++ [Alert.usageFull p.device percent uth] else alerts
        processPartitions uth rest (dictInsert p.device entry du) alerts'

/-- `get_disk_usage` (lines 45-81): starts from an empty dict and walks the
partition list, threading `self.alerts`. -/
def get_disk_usage (uth : ℚ) (parts : List Partition) (alerts : List Alert) :
    Except (List Alert) (List (PyStr × VolumeEntry) × List Alert) :=
  processPartitions uth parts [] alerts

/-- One reading inside a `psutil.sensors_temperatures()` group. -/
structure SensorReading where
  label : PyStr
  current : ℚ
deriving DecidableEq

/-- One named group of the `psutil.sensors_temperatures()` dict. -/
structure SensorGroup where
  name : PyStr
  readings : List SensorReading
deriving DecidableEq

/-- Line 104: the sensor-name filter, case-insensitive substring match against
the storage keyword set. -/
def storageKeyword (name : PyStr) : Bool :=
  [pstr "nvme", pstr "ssd", pstr "sata", pstr "drive"].any
    fun kw => strContains (strLower name) kw

/-- Inner `for sensor in sensor_list` loop of `get_drive_temperatures`
(lines 105-114): record the reading under the key `f"{sensor_name}_{label}"`
and raise the alert on strict threshold excess. -/
def tempReadings (tth : ℚ) (name : PyStr) :
    List SensorReading → List (PyStr × ℚ) → List Alert → List (PyStr × ℚ) × List Alert
  | [], temps, alerts => (temps, alerts)
  | r :: rest, temps, alerts =>
    let temps' := dictInsert (name ++ ['_'] ++ r.label) r.current temps
    let alerts' :=
      if r.current > tth then alerts ++ [Alert.overTemp name r.current tth] else alerts
    tempReadings tth name rest temps' alerts'

/-- Outer `for sensor_name, sensor_list in sensors.items()` loop
(lines 103-114): only groups passing the keyword filter are visited. -/
def tempGroups (tth : ℚ) :
    List SensorGroup → List (PyStr × ℚ) → List Alert → List (PyStr × ℚ) × List Alert
  | [], temps, alerts => (temps, alerts)
  | g :: rest, temps, alerts =>
    if storageKeyword g.name then
      let (temps', alerts') := tempReadings tth g.name g.readings temps alerts
      tempGroups tth rest temps' alerts'
    else
      tempGroups tth rest temps alerts

/-- `get_drive_temperatures` (lines 83-120).  `none` models
`psutil.sensors_temperatures()` raising: the blanket `except` returns the
empty dict built so far.  An empty dict is falsy, taking the early return on
line 101; both paths yield an empty map with the alerts untouched. -/
def get_drive_temperatures (tth : ℚ) (sensorsEnv : Option (List SensorGroup))
    (alerts : List Alert) : List (PyStr × ℚ) × List Alert :=
  match sensorsEnv with
  | none => ([], alerts)
  | some groups =>
    if groups = [] then ([], alerts)
    else tempGroups tth groups [] alerts

/-- The JSON document `smartctl -a -j` prints, after `json.loads`:
`smart_status` is `some passed` when the `smart_status` key is present with
its `passed` flag, `none` when absent; `raw` stands for the rest of the
opaque payload.  The empty dict `{}` is `⟨none, []⟩`. -/
structure SmartPayload where
  smart_status : Option Bool
  raw : PyStr
deriving DecidableEq

/-- How one `subprocess.run(['smartctl', ...])` invocation turns out, one
constructor per except-clause of `check_smart_data` plus the non-zero-exit
branch and the successful parse. -/
inductive SmartOutcome where
  | toolMissing
  | timeout
  | exitNonzero
  | parseFailure
  | otherError
  | ok (payload : SmartPayload)

/-- `check_smart_data` (lines 122-169): every failure path returns the empty
dict `{}` and appends nothing; a parsed payload whose `smart_status.passed`
flag is `false` appends the smart alert before the payload is returned. -/
def check_smart_data (outcome : SmartOutcome) (drive_path : PyStr)
    (alerts : List Alert) : SmartPayload × List Alert :=
  match outcome with
  | .ok payload =>
    match payload.smart_status with
    | some passed =>
      if passed then (payload, alerts)
      else (payload, alerts ++ [Alert.smartFailed drive_path])
    | none => (payload, alerts)
  | _ => (⟨none, []⟩, alerts)

/-- Lines 234-238: a device string ending in a colon is rewritten to
`/dev/sd` followed by `chr(ord('a') + ord(device[0]) - ord('A'))`; anything
else is used verbatim.  Since `'a'.toNat = 97` the sum `97 + c` exceeds 65,
so natural subtraction agrees with Python's integer arithmetic; the `headD`
default is unreachable because a string ending in `':'` is nonempty. -/
def translate_device (device : PyStr) : PyStr :=
  if strEnds device [':'] then
    pstr "/dev/sd" ++ [Char.ofNat ('a'.toNat + (device.headD 'A').toNat - 'A'.toNat)]
  else device

/-- The spec's guard, from its words: a device identifier that is "a single
letter followed by a colon" (refinement comparison point for the source's
`device.endswith(':')` guard). -/
def specLetterColon : PyStr → Bool
  | [c, ':'] => c.isAlpha
  | _ => false

/-- The `for device in disk_usage.keys()` loop of `run_full_check`
(lines 233-240): translate the device, run the SMART check, store the verdict
under the original device key. -/
def smartLoop (smartEnv : PyStr → SmartOutcome) :
    List PyStr → List (PyStr × SmartPayload) → List Alert →
      List (PyStr × SmartPayload) × List Alert
  | [], acc, alerts => (acc, alerts)
  | device :: rest, acc, alerts =>
    let path := translate_device device
    let (verdict, alerts') := check_smart_data (smartEnv path) path alerts
    smartLoop smartEnv rest (dictInsert device verdict acc) alerts'

/-- The monitor's instance state: the two thresholds and `self.alerts`. -/
structure MonitorState where
  temp_threshold : ℚ
  usage_threshold : ℚ
  alerts : List Alert
deriving DecidableEq

/-- The error the specification says threshold validation should raise. -/
inductive ConfigurationError where
  | invalidThreshold
deriving DecidableEq

/-- `__init__` (lines 29-43): stores the two thresholds verbatim and creates
the empty alert list.  The body contains no validation and no `raise`, so as
a fallible constructor it is the constant `Except.ok`. -/
def mkMonitor (temp_threshold : ℚ := 70) (usage_threshold : ℚ := 90) :
    Except ConfigurationError MonitorState :=
  .ok { temp_threshold := temp_threshold, usage_threshold := usage_threshold, alerts := [] }

/-- The dict returned by `run_full_check` (lines 254-261). -/
structure HealthReport where
  timestamp : PyStr
  disk_usage : List (PyStr × VolumeEntry)
  temperatures : List (PyStr × ℚ)
  smart_data : List (PyStr × SmartPayload)
  alerts : List Alert
  healthy : Bool
deriving DecidableEq

/-- Everything the run reads from outside the process: the partition table,
the sensor dict (or its failure), the smartctl outcome per device path, and
`datetime.now().isoformat()`. -/
structure Env where
  partitions : List Partition
  sensors : Option (List SensorGroup)
  smart : PyStr → SmartOutcome
  now : PyStr

/-- `run_full_check` (lines 217-261): usage collection, temperature
collection, the SMART loop over the usage dict's keys, then report assembly
with `healthy = (len(self.alerts) == 0)`.  A `ZeroDivisionError` escaping
`get_disk_usage` propagates (`Except.error`); otherwise the report and the
updated instance state are returned. -/
def run_full_check (s : MonitorState) (env : Env) :
    Except (List Alert) (HealthReport × MonitorState) :=
  match get_disk_usage s.usage_threshold env.partitions s.alerts with
  | .error a => .error a
  | .ok (disk_usage, alerts1) =>
    let (temperatures, alerts2) := get_drive_temperatures s.temp_threshold env.sensors alerts1
    let (smart_data, alerts3) := smartLoop env.smart (disk_usage.map Prod.fst) [] alerts2
    .ok
      ({ timestamp := env.now
         disk_usage := disk_usage
         temperatures := temperatures
         smart_data := smart_data
         alerts := alerts3
         healthy := alerts3.length == 0 },
       { s with alerts := alerts3 })


/-- The usage alerts one run emits: the alert delta of `get_disk_usage`,
read off by running the partition loop from an empty alert list (on the
abort path, the alerts emitted before the crash). -/
def usageAlerts (uth : ℚ) (parts : List Partition) : List Alert :=
  match processPartitions uth parts [] [] with
  | .ok p => p.2
  | .error e => e

/-- The temperature alerts one run emits: the alert delta of
`get_drive_temperatures`. -/
def tempAlerts (tth : ℚ) (senv : Option (List SensorGroup)) : List Alert :=
  (get_drive_temperatures tth senv []).2

/-- The SMART alerts one run emits for a device list: the alert delta of the
per-device loop of `run_full_check`. -/
def smartAlerts (smartEnv : PyStr → SmartOutcome) (ds : List PyStr) : List Alert :=
  (smartLoop smartEnv ds [] []).2


theorem processPartitions_append (uth : ℚ) (ps : List Partition)
    (du : List (PyStr × VolumeEntry)) (a b : List Alert) :
    processPartitions uth ps du (a ++ b) =
      (match processPartitions uth ps du b with
       | .ok r => .ok (r.1, a ++ r.2)
       | .error e => .error (a ++ e)) := by
  induction ps generalizing du b with
  | nil => simp [processPartitions]
  | cons p rest ih =>
    unfold processPartitions
    cases hq : p.query with
    | permissionDenied => exact ih du b
    | stat u =>
      dsimp only
      by_cases h0 : u.total = 0
      · simp [h0]
      · rw [if_neg h0, if_neg h0]
        by_cases hc : ((u.used : ℚ) / (u.total : ℚ)) * 100 > uth
        · rw [if_pos hc, if_pos hc, List.append_assoc]
          exact ih _ _
        · rw [if_neg hc, if_neg hc]
          exact ih _ _

theorem tempReadings_append (tth : ℚ) (name : PyStr) (rs : List SensorReading)
    (temps : List (PyStr × ℚ)) (a b : List Alert) :
    tempReadings tth name rs temps (a ++ b) =
      ((tempReadings tth name rs temps b).1, a ++ (tempReadings tth name rs temps b).2) := by
  induction rs generalizing temps b with
  | nil => simp [tempReadings]
  | cons r rest ih =>
    unfold tempReadings
    dsimp only
    by_cases hc : r.current > tth
    · rw [if_pos hc, if_pos hc, List.append_assoc a b [Alert.overTemp name r.current tth]]
      exact ih _ _
    · rw [if_neg hc, if_neg hc]
      exact ih _ _

theorem tempGroups_append (tth : ℚ) (gs : List SensorGroup)
    (temps : List (PyStr × ℚ)) (a b : List Alert) :
    tempGroups tth gs temps (a ++ b) =
      ((tempGroups tth gs temps b).1, a ++ (tempGroups tth gs temps b).2) := by
  induction gs generalizing temps b with
  | nil => simp [tempGroups]
  | cons g rest ih =>
    unfold tempGroups
    dsimp only
    by_cases hk : storageKeyword g.name
    · rw [if_pos hk, if_pos hk, tempReadings_append]
      exact ih _ _
    · rw [if_neg hk, if_neg hk]
      exact ih _ _

theorem check_smart_data_append (o : SmartOutcome) (p : PyStr) (a b : List Alert) :
    check_smart_data o p (a ++ b) =
      ((check_smart_data o p b).1, a ++ (check_smart_data o p b).2) := by
  cases o with
  | ok payload =>
    cases hs : payload.smart_status with
    | some passed =>
      cases passed <;> simp [check_smart_data, hs, List.append_assoc]
    | none => simp [check_smart_data, hs]
  | toolMissing => simp [check_smart_data]
  | timeout => simp [check_smart_data]
  | exitNonzero => simp [check_smart_data]
  | parseFailure => simp [check_smart_data]
  | otherError => simp [check_smart_data]

theorem smartLoop_append (smartEnv : PyStr → SmartOutcome) (ds : List PyStr)
    (acc : List (PyStr × SmartPayload)) (a b : List Alert) :
    smartLoop smartEnv ds acc (a ++ b) =
      ((smartLoop smartEnv ds acc b).1, a ++ (smartLoop smartEnv ds acc b).2) := by
  induction ds generalizing acc b with
  | nil => simp [smartLoop]
  | cons d rest ih =>
    unfold smartLoop
    dsimp only
    rw [check_smart_data_append]
    exact ih _ _


/-- Delta form of `processPartitions_append`: running from any alert state is
running from the empty state with the fresh alerts appended. -/
theorem processPartitions_delta (uth : ℚ) (ps : List Partition)
    (du : List (PyStr × VolumeEntry)) (a : List Alert) :
    processPartitions uth ps du a =
      (match processPartitions uth ps du [] with
       | .ok r => .ok (r.1, a ++ r.2)
       | .error e => .error (a ++ e)) := by
  have h := processPartitions_append uth ps du a []
  rwa [List.append_nil] at h

/-- Delta form for temperature collection. -/
theorem get_drive_temperatures_delta (tth : ℚ) (senv : Option (List SensorGroup))
    (a : List Alert) :
    get_drive_temperatures tth senv a =
      ((get_drive_temperatures tth senv []).1,
        a ++ (get_drive_temperatures tth senv []).2) := by
  cases senv with
  | none => simp [get_drive_temperatures]
  | some groups =>
    by_cases hg : groups = []
    · simp [get_drive_temperatures, hg]
    · simp only [get_drive_temperatures, if_neg hg]
      have h := tempGroups_append tth groups [] a []
      rwa [List.append_nil] at h

/-- Delta form for the SMART loop. -/
theorem smartLoop_delta (smartEnv : PyStr → SmartOutcome) (ds : List PyStr)
    (acc : List (PyStr × SmartPayload)) (a : List Alert) :
    smartLoop smartEnv ds acc a =
      ((smartLoop smartEnv ds acc []).1, a ++ (smartLoop smartEnv ds acc []).2) := by
  have h := smartLoop_append smartEnv ds acc a []
  rwa [List.append_nil] at h

/-- Every alert the usage loop emits is a usage alert: an alert in the final
list was already there at entry or came from the usage f-string. -/
theorem processPartitions_mem (uth : ℚ) (ps : List Partition) :
    ∀ (du : List (PyStr × VolumeEntry)) (a : List Alert) res,
      processPartitions uth ps du a = .ok res →
        ∀ al ∈ res.2, al ∈ a ∨ al.category = AlertCategory.usage := by
  induction ps with
  | nil =>
    intro du a res h al hal
    simp only [processPartitions, Except.ok.injEq] at h
    cases h
    exact Or.inl hal
  | cons p rest ih =>
    intro du a res h al hal
    rw [processPartitions] at h
    revert h
    cases hq : p.query with
    | permissionDenied => exact fun h => ih _ _ _ h al hal
    | stat u =>
      dsimp only
      by_cases h0 : u.total = 0
      · rw [if_pos h0]
        intro h
        cases h
      · rw [if_neg h0]
        intro h
        rcases ih _ _ _ h al hal with hmem | hcat
        · by_cases hc : ((u.used : ℚ) / (u.total : ℚ)) * 100 > uth
          · rw [if_pos hc] at hmem
            rcases List.mem_append.mp hmem with h1 | h2
            · exact Or.inl h1
            · right
              rw [List.mem_singleton.mp h2]
              rfl
          · rw [if_neg hc] at hmem
            exact Or.inl hmem
        · exact Or.inr hcat

/-- Every alert the inner temperature loop emits is a temperature alert. -/
theorem tempReadings_mem (tth : ℚ) (name : PyStr) (rs : List SensorReading) :
    ∀ (temps : List (PyStr × ℚ)) (a : List Alert),
      ∀ al ∈ (tempReadings tth name rs temps a).2,
        al ∈ a ∨ al.category = AlertCategory.temperature := by
  induction rs with
  | nil =>
    intro temps a al hal
    simpa [tempReadings] using Or.inl hal
  | cons r rest ih =>
    intro temps a al hal
    rw [tempReadings] at hal
    rcases ih _ _ al hal with hmem | hcat
    · by_cases hc : r.current > tth
      · rw [if_pos hc] at hmem
        rcases List.mem_append.mp hmem with h1 | h2
        · exact Or.inl h1
        · right
          rw [List.mem_singleton.mp h2]
          rfl
      · rw [if_neg hc] at hmem
        exact Or.inl hmem
    · exact Or.inr hcat

/-- Every alert the outer temperature loop emits is a temperature alert. -/
theorem tempGroups_mem (tth : ℚ) (gs : List SensorGroup) :
    ∀ (temps : List (PyStr × ℚ)) (a : List Alert),
      ∀ al ∈ (tempGroups tth gs temps a).2,
        al ∈ a ∨ al.category = AlertCategory.temperature := by
  induction gs with
  | nil =>
    intro temps a al hal
    simpa [tempGroups] using Or.inl hal
  | cons g rest ih =>
    intro temps a al hal
    rw [tempGroups] at hal
    by_cases hk : storageKeyword g.name
    · rw [if_pos hk] at hal
      dsimp only at hal
      rcases ih _ _ al hal with hmem | hcat
      · exact tempReadings_mem tth g.name g.readings temps a al hmem
      · exact Or.inr hcat
    · rw [if_neg hk] at hal
      exact ih _ _ al hal

/-- Every alert temperature collection emits is a temperature alert. -/
theorem get_drive_temperatures_mem (tth : ℚ) (senv : Option (List SensorGroup))
    (a : List Alert) :
    ∀ al ∈ (get_drive_temperatures tth senv a).2,
      al ∈ a ∨ al.category = AlertCategory.temperature := by
  intro al hal
  cases senv with
  | none => exact Or.inl (by simpa [get_drive_temperatures] using hal)
  | some groups =>
    by_cases hg : groups = []
    · rw [get_drive_temperatures] at hal
      rw [if_pos hg] at hal
      exact Or.inl hal
    · rw [get_drive_temperatures] at hal
      rw [if_neg hg] at hal
      exact tempGroups_mem tth groups [] a al hal

/-- Every alert a SMART check emits is a smart alert. -/
theorem check_smart_data_mem (o : SmartOutcome) (p : PyStr) (a : List Alert) :
    ∀ al ∈ (check_smart_data o p a).2, al ∈ a ∨ al.category = AlertCategory.smart := by
  intro al hal
  cases o with
  | ok payload =>
    rw [check_smart_data] at hal
    revert hal
    cases hs : payload.smart_status with
    | some passed =>
      cases passed
      · dsimp only
        intro hal
        rcases List.mem_append.mp hal with h1 | h2
        · exact Or.inl h1
        · right
          rw [List.mem_singleton.mp h2]
          rfl
      · exact fun hal => Or.inl hal
    | none => exact fun hal => Or.inl hal
  | toolMissing => exact Or.inl hal
  | timeout => exact Or.inl hal
  | exitNonzero => exact Or.inl hal
  | parseFailure => exact Or.inl hal
  | otherError => exact Or.inl hal

/-- Every alert the SMART loop emits is a smart alert. -/
theorem smartLoop_mem (smartEnv : PyStr → SmartOutcome) (ds : List PyStr) :
    ∀ (acc : List (PyStr × SmartPayload)) (a : List Alert),
      ∀ al ∈ (smartLoop smartEnv ds acc a).2,
        al ∈ a ∨ al.category = AlertCategory.smart := by
  induction ds with
  | nil =>
    intro acc a al hal
    simpa [smartLoop] using Or.inl hal
  | cons d rest ih =>
    intro acc a al hal
    rw [smartLoop] at hal
    dsimp only at hal
    rcases ih _ _ al hal with hmem | hcat
    · exact check_smart_data_mem _ _ _ al hmem
    · exact Or.inr hcat


/-- The key just inserted is a key of the dict. -/
theorem dictInsert_self_mem (k : PyStr) (v : α) (l : List (PyStr × α)) :
    k ∈ (dictInsert k v l).map Prod.fst := by
  induction l with
  | nil => simp [dictInsert]
  | cons p rest ih =>
    obtain ⟨k', v'⟩ := p
    by_cases h : k' = k
    · rw [dictInsert, if_pos h]
      exact List.mem_cons_self k _
    · rw [dictInsert, if_neg h]
      rw [List.map_cons]
      exact List.mem_cons_of_mem _ ih

/-- Insertion never removes a key. -/
theorem dictInsert_mem_of_mem (k k' : PyStr) (v : α) (l : List (PyStr × α))
    (h : k' ∈ l.map Prod.fst) : k' ∈ (dictInsert k v l).map Prod.fst := by
  induction l with
  | nil => simp at h
  | cons p rest ih =>
    obtain ⟨ka, va⟩ := p
    by_cases hk : ka = k
    · simp only [dictInsert, if_pos hk]
      simp only [List.map_cons, List.mem_cons] at h ⊢
      rcases h with h | h
      · exact Or.inl (hk ▸ h)
      · exact Or.inr h
    · simp only [dictInsert, if_neg hk]
      simp only [List.map_cons, List.mem_cons] at h ⊢
      rcases h with h | h
      · exact Or.inl h
      · exact Or.inr (ih h)

/-- Keys already collected survive the rest of the SMART loop. -/
theorem smartLoop_keys_mono (smartEnv : PyStr → SmartOutcome) (ds : List PyStr) :
    ∀ (acc : List (PyStr × SmartPayload)) (a : List Alert) (k : PyStr),
      k ∈ acc.map Prod.fst → k ∈ (smartLoop smartEnv ds acc a).1.map Prod.fst := by
  induction ds with
  | nil =>
    intro acc a k h
    rw [smartLoop]
    exact h
  | cons d rest ih =>
    intro acc a k h
    rw [smartLoop]
    dsimp only
    apply ih
    exact dictInsert_mem_of_mem _ _ _ _ h

/-- The SMART loop records a verdict for every device it is given: no failure
on an earlier device prevents a later device from being checked. -/
theorem smartLoop_keys (smartEnv : PyStr → SmartOutcome) (ds : List PyStr) :
    ∀ (acc : List (PyStr × SmartPayload)) (a : List Alert),
      ∀ d ∈ ds, d ∈ (smartLoop smartEnv ds acc a).1.map Prod.fst := by
  induction ds with
  | nil => intro acc a d hd; cases hd
  | cons d0 rest ih =>
    intro acc a d hd
    rw [smartLoop]
    dsimp only
    rcases List.mem_cons.mp hd with rfl | hd'
    · exact smartLoop_keys_mono smartEnv rest _ _ d (dictInsert_self_mem d _ acc)
    · exact ih _ _ d hd'

/-- Shape of a successful run: the report's alert list is exactly the final
instance state's alert list, the healthy flag is its emptiness test, the
thresholds are untouched, and the report fields are the three collector
results. -/
theorem run_full_check_ok (s : MonitorState) (env : Env) (r : HealthReport)
    (s' : MonitorState) (h : run_full_check s env = .ok (r, s')) :
    r.alerts = s'.alerts ∧ r.healthy = (r.alerts.length == 0) ∧
      s'.temp_threshold = s.temp_threshold ∧ s'.usage_threshold = s.usage_threshold := by
  unfold run_full_check at h
  cases hdu : get_disk_usage s.usage_threshold env.partitions s.alerts with
  | error a =>
    rw [hdu] at h
    cases h
  | ok du_a =>
    obtain ⟨du, a1⟩ := du_a
    rw [hdu] at h
    dsimp only at h
    rw [Except.ok.injEq, Prod.mk.injEq] at h
    obtain ⟨hr, hs⟩ := h
    subst hr
    subst hs
    exact ⟨rfl, rfl, rfl, rfl⟩

/-- Alert decomposition of a successful run: the assembled alert list is the
pre-existing alerts followed by the usage deltas, the temperature deltas and
the SMART deltas, in that order. -/
theorem run_alert_decomp (s : MonitorState) (env : Env) (r : HealthReport)
    (s' : MonitorState) (h : run_full_check s env = .ok (r, s')) :
    ∃ u t m, r.alerts = s.alerts ++ u ++ t ++ m ∧
      (∀ al ∈ u, al.category = AlertCategory.usage) ∧
      (∀ al ∈ t, al.category = AlertCategory.temperature) ∧
      (∀ al ∈ m, al.category = AlertCategory.smart) := by
  unfold run_full_check at h
  cases hdu : get_disk_usage s.usage_threshold env.partitions s.alerts with
  | error a =>
    rw [hdu] at h
    cases h
  | ok du_a =>
    obtain ⟨du, a1⟩ := du_a
    rw [hdu] at h
    dsimp only at h
    rw [Except.ok.injEq, Prod.mk.injEq] at h
    obtain ⟨hr, hs⟩ := h
    -- usage delta
    rw [get_disk_usage, processPartitions_delta] at hdu
    revert hdu
    cases hdu0 : processPartitions s.usage_threshold env.partitions [] [] with
    | error e => intro hdu; cases hdu
    | ok r0 =>
      intro hdu
      rw [Except.ok.injEq, Prod.mk.injEq] at hdu
      obtain ⟨hdu1, hdu2⟩ := hdu
      refine ⟨r0.2, (get_drive_temperatures s.temp_threshold env.sensors []).2,
        (smartLoop env.smart (du.map Prod.fst) [] []).2, ?_, ?_, ?_, ?_⟩
      · rw [← hr]
        dsimp only
        rw [get_drive_temperatures_delta, smartLoop_delta]
        dsimp only
        rw [← hdu2]
      · intro al hal
        rcases processPartitions_mem s.usage_threshold env.partitions [] []
          r0 hdu0 al hal with hmem | hcat
        · cases hmem
        · exact hcat
      · intro al hal
        rcases get_drive_temperatures_mem s.temp_threshold env.sensors [] al hal with
          hmem | hcat
        · cases hmem
        · exact hcat
      · intro al hal
        rcases smartLoop_mem env.smart (du.map Prod.fst) [] [] al hal with hmem | hcat
        · cases hmem
        · exact hcat


/-- Rounding to two decimals keeps additivity within one hundredth: the
discrepancy between the rounded summands and the rounded sum is an integer
number of hundredths whose magnitude is at most three half-hundredths, hence
at most one hundredth. -/
theorem roundTo_two_add (x y : ℚ) :
    |roundTo 2 x + roundTo 2 y - roundTo 2 (x + y)| ≤ 1 / 100 := by
  have hx := abs_sub_round (x * 10 ^ 2)
  have hy := abs_sub_round (y * 10 ^ 2)
  have hz := abs_sub_round ((x + y) * 10 ^ 2)
  rw [abs_le] at hx hy hz
  obtain ⟨hx1, hx2⟩ := hx
  obtain ⟨hy1, hy2⟩ := hy
  obtain ⟨hz1, hz2⟩ := hz
  set a : ℤ := round (x * 10 ^ 2) with ha
  set b : ℤ := round (y * 10 ^ 2) with hb
  set c : ℤ := round ((x + y) * 10 ^ 2) with hc
  have hub : ((a + b - c : ℤ) : ℚ) < 2 := by
    push_cast
    linarith
  have hlb : (-2 : ℚ) < ((a + b - c : ℤ) : ℚ) := by
    push_cast
    linarith
  have hub' : a + b - c < 2 := by exact_mod_cast hub
  have hlb' : (-2 : ℤ) < a + b - c := by exact_mod_cast hlb
  have hint : |a + b - c| ≤ 1 := by
    rw [abs_le]
    omega
  have hnum : |((a + b - c : ℤ) : ℚ)| ≤ 1 := by
    rw [← Int.cast_abs]
    exact_mod_cast hint
  have hval : roundTo 2 x + roundTo 2 y - roundTo 2 (x + y) =
      ((a + b - c : ℤ) : ℚ) / 10 ^ 2 := by
    rw [roundTo, roundTo, roundTo, ← ha, ← hb, ← hc]
    push_cast
    ring
  rw [hval, abs_div]
  have hd : |((10 : ℚ) ^ 2)| = 100 := by norm_num
  rw [hd]
  linarith


/-- A group list in which no name matches the storage keyword set leaves the
temperature map and the alert list untouched. -/
theorem tempGroups_no_match (tth : ℚ) (gs : List SensorGroup) :
    ∀ (temps : List (PyStr × ℚ)) (a : List Alert),
      (∀ g ∈ gs, storageKeyword g.name = false) →
        tempGroups tth gs temps a = (temps, a) := by
  induction gs with
  | nil => intro temps a _; rfl
  | cons g rest ih =>
    intro temps a hq
    rw [tempGroups]
    rw [if_neg]
    · exact ih temps a fun g' hg' => hq g' (List.mem_cons_of_mem g hg')
    · rw [hq g (List.mem_cons_self g rest)]
      exact Bool.false_ne_true

/-- C1: for every run, the HealthReport returned by run_full_check has
healthy = true exactly when the report's alert list is empty at
report-assembly time, whichever collectors produced the alerts. -/
theorem c1_healthy_iff_alerts_empty (s : MonitorState) (env : Env) (r : HealthReport)
    (s' : MonitorState) (h : run_full_check s env = .ok (r, s')) :
    r.healthy = true ↔ r.alerts = [] := by
  obtain ⟨-, hh, -, -⟩ := run_full_check_ok s env r s' h
  rw [hh, beq_iff_eq]
  exact List.length_eq_zero

/-- Witness for C1 on a concrete successful run. -/
theorem c1_witness :
    ({ timestamp := pstr "t", disk_usage := [], temperatures := [], smart_data := [],
       alerts := [], healthy := true } : HealthReport).healthy = true ↔
      ({ timestamp := pstr "t", disk_usage := [], temperatures := [], smart_data := [],
         alerts := [], healthy := true } : HealthReport).alerts = [] :=
  c1_healthy_iff_alerts_empty ⟨70, 90, []⟩
    ⟨[], none, fun _ => SmartOutcome.toolMissing, pstr "t"⟩
    { timestamp := pstr "t", disk_usage := [], temperatures := [], smart_data := [],
      alerts := [], healthy := true }
    ⟨70, 90, []⟩ rfl

/-- C2: contrary to the claim, a mounted volume with total = 0 is not
excluded: the division `used / total` raises ZeroDivisionError, which no
except clause catches, so usage collection aborts (and the whole run with
it), reporting nothing for the volume. -/
theorem c2_zero_total_aborts :
    get_disk_usage 90 [⟨pstr "/dev/sda1", pstr "/", UsageQuery.stat ⟨0, 0, 0⟩⟩] [] = .error []
    ∧ run_full_check ⟨70, 90, []⟩
        ⟨[⟨pstr "/dev/sda1", pstr "/", UsageQuery.stat ⟨0, 0, 0⟩⟩], none,
          fun _ => SmartOutcome.toolMissing, pstr "t"⟩ = .error [] :=
  ⟨rfl, rfl⟩

/-- C4 counterexample: the usage threshold 150 lies outside [0, 100], yet
construction succeeds and stores it, raising no ConfigurationError. -/
theorem c4_threshold_150_accepted :
    ¬ ((0 : ℚ) ≤ 150 ∧ (150 : ℚ) ≤ 100) ∧ mkMonitor 70 150 = .ok ⟨70, 150, []⟩ := by
  constructor
  · intro h
    have h2 := h.2
    norm_num at h2
  · rfl

/-- C4 amended: construction performs no threshold validation at all; every
threshold pair is accepted verbatim with a fresh empty alert list, and the
resulting monitor can start a run. -/
theorem c4_construction_never_validates (t u : ℚ) :
    mkMonitor t u = .ok ⟨t, u, []⟩
    ∧ ∃ r s', run_full_check ⟨t, u, []⟩
        ⟨[], none, fun _ => SmartOutcome.toolMissing, []⟩ = .ok (r, s') :=
  ⟨rfl, _, _, rfl⟩

/-- C6 counterexample: "BC:" is not a single letter followed by a colon, so
the claim says it passes through unchanged; the source still translates it,
because the guard only tests `endswith(':')`. -/
theorem c6_two_letter_colon_translated :
    specLetterColon (pstr "BC:") = false
    ∧ translate_device (pstr "BC:") = pstr "/dev/sdb"
    ∧ pstr "/dev/sdb" ≠ pstr "BC:" := by
  exact ⟨rfl, rfl, by decide⟩

/-- C6 amended: any identifier ending in a colon — single-letter or not — is
rewritten to /dev/sd followed by chr(ord(first) - ord A + ord a), which on
uppercase drive letters realizes the ordinal mapping A -> /dev/sda,
B -> /dev/sdb, ...; an identifier not ending in a colon passes through
unchanged. -/
theorem c6_translate_amended (s : PyStr) (h : strEnds s [':'] = false) :
    translate_device s = s
    ∧ translate_device (pstr "A:") = pstr "/dev/sda"
    ∧ translate_device (pstr "B:") = pstr "/dev/sdb"
    ∧ translate_device (pstr "C:") = pstr "/dev/sdc"
    ∧ translate_device (pstr "BC:") = pstr "/dev/sdb" := by
  refine ⟨?_, rfl, rfl, rfl, rfl⟩
  simp [translate_device, h]

/-- Witness for C6 amended: a raw Linux device path is passed through. -/
theorem c6_witness :
    translate_device (pstr "/dev/nvme0n1") = pstr "/dev/nvme0n1"
    ∧ translate_device (pstr "A:") = pstr "/dev/sda"
    ∧ translate_device (pstr "B:") = pstr "/dev/sdb"
    ∧ translate_device (pstr "C:") = pstr "/dev/sdc"
    ∧ translate_device (pstr "BC:") = pstr "/dev/sdb" :=
  c6_translate_amended (pstr "/dev/nvme0n1") (by decide)

/-- C7: when the sensor subsystem is unavailable (raises, or the sensor dict
is empty) or no sensor group matches the storage keywords, temperature
collection returns an empty map, does not raise, and appends no alert. -/
theorem c7_no_qualifying_sensors (tth : ℚ) (alerts : List Alert)
    (groups : List SensorGroup) (hq : ∀ g ∈ groups, storageKeyword g.name = false) :
    get_drive_temperatures tth none alerts = ([], alerts)
    ∧ get_drive_temperatures tth (some groups) alerts = ([], alerts) := by
  refine ⟨rfl, ?_⟩
  rw [get_drive_temperatures]
  by_cases hg : groups = []
  · rw [if_pos hg]
  · rw [if_neg hg]
    exact tempGroups_no_match tth groups [] alerts hq

/-- Witness for C7: a CPU sensor group with a hot reading is filtered out. -/
theorem c7_witness :
    get_drive_temperatures 70 none [] = ([], [])
    ∧ get_drive_temperatures 70
        (some [⟨pstr "coretemp", [⟨pstr "Core 0", 95⟩]⟩]) [] = ([], []) :=
  c7_no_qualifying_sensors 70 [] [⟨pstr "coretemp", [⟨pstr "Core 0", 95⟩]⟩] (by decide)


/-- C3: a usage alert is emitted exactly when the raw percentage strictly
exceeds the usage threshold (boundary equality emits nothing), and a
temperature alert exactly when the reading strictly exceeds the temperature
threshold: each emitted list is literally the if-on-strict-excess. -/
theorem c3_alert_iff_strict (uth tth : ℚ) (dev mp : PyStr) (st : UsageStat)
    (h0 : st.total ≠ 0) (gname lbl : PyStr) (hk : storageKeyword gname = true) (v : ℚ) :
    (∃ du, get_disk_usage uth [⟨dev, mp, UsageQuery.stat st⟩] [] =
        .ok (du, if ((st.used : ℚ) / (st.total : ℚ)) * 100 > uth
          then [Alert.usageFull dev (((st.used : ℚ) / (st.total : ℚ)) * 100) uth] else []))
    ∧ ((get_drive_temperatures tth (some [⟨gname, [⟨lbl, v⟩]⟩]) []).2 =
        if v > tth then [Alert.overTemp gname v tth] else []) := by
  constructor
  · refine ⟨dictInsert dev
      { mountpoint := mp
        total_gb := roundTo 2 (gb st.total)
        used_gb := roundTo 2 (gb st.used)
        free_gb := roundTo 2 (gb st.free)
        percent_used := roundTo 1 (((st.used : ℚ) / (st.total : ℚ)) * 100) } [], ?_⟩
    rw [get_disk_usage, processPartitions]
    dsimp only
    rw [if_neg h0]
    rfl
  · rw [get_drive_temperatures]
    rw [if_neg (by simp : ¬([(⟨gname, [⟨lbl, v⟩]⟩ : SensorGroup)] = []))]
    rw [tempGroups]
    dsimp only
    rw [if_pos hk]
    rfl

/-- Witness for C3: 95% of a 100-byte volume against a 90% threshold, and a
qualifying nvme sensor at 80 °C against a 70 °C threshold. -/
theorem c3_witness :
    (∃ du, get_disk_usage 90 [⟨pstr "C:", pstr "C:\\", UsageQuery.stat ⟨100, 95, 5⟩⟩] [] =
        .ok (du, if (((⟨100, 95, 5⟩ : UsageStat).used : ℚ) /
              ((⟨100, 95, 5⟩ : UsageStat).total : ℚ)) * 100 > 90
          then [Alert.usageFull (pstr "C:")
            ((((⟨100, 95, 5⟩ : UsageStat).used : ℚ) /
              ((⟨100, 95, 5⟩ : UsageStat).total : ℚ)) * 100) 90] else []))
    ∧ ((get_drive_temperatures 70 (some [⟨pstr "nvme0", [⟨pstr "Composite", 80⟩]⟩]) []).2 =
        if (80 : ℚ) > 70 then [Alert.overTemp (pstr "nvme0") 80 70] else []) :=
  c3_alert_iff_strict 90 70 (pstr "C:") (pstr "C:\\") ⟨100, 95, 5⟩ (by decide)
    (pstr "nvme0") (pstr "Composite") (by decide) 80

/-- C5: a SMART check whose tool is missing, times out, exits non-zero, or
yields unparsable output returns the indeterminate verdict (no pass/fail
field, hence distinguishable from an explicit fail), emits no alert, and the
SMART loop still records a verdict for every device given to it. -/
theorem c5_smart_failure_nonblocking (outcome : SmartOutcome)
    (hfail : ∀ p, outcome ≠ SmartOutcome.ok p) (path : PyStr) (alerts : List Alert)
    (smartEnv : PyStr → SmartOutcome) (devices : List PyStr)
    (acc : List (PyStr × SmartPayload)) (d : PyStr) (hd : d ∈ devices) :
    (check_smart_data outcome path alerts).1.smart_status = none
    ∧ (check_smart_data outcome path alerts).1.smart_status ≠ some false
    ∧ (check_smart_data outcome path alerts).2 = alerts
    ∧ d ∈ (smartLoop smartEnv devices acc alerts).1.map Prod.fst := by
  have hmem := smartLoop_keys smartEnv devices acc alerts d hd
  cases outcome with
  | ok p => exact absurd rfl (hfail p)
  | toolMissing => exact ⟨rfl, by simp [check_smart_data], rfl, hmem⟩
  | timeout => exact ⟨rfl, by simp [check_smart_data], rfl, hmem⟩
  | exitNonzero => exact ⟨rfl, by simp [check_smart_data], rfl, hmem⟩
  | parseFailure => exact ⟨rfl, by simp [check_smart_data], rfl, hmem⟩
  | otherError => exact ⟨rfl, by simp [check_smart_data], rfl, hmem⟩

/-- Witness for C5: smartctl missing for /dev/sda does not stop /dev/sdb
from being checked. -/
theorem c5_witness :
    (check_smart_data SmartOutcome.toolMissing (pstr "/dev/sda") []).1.smart_status = none
    ∧ (check_smart_data SmartOutcome.toolMissing (pstr "/dev/sda") []).1.smart_status ≠
        some false
    ∧ (check_smart_data SmartOutcome.toolMissing (pstr "/dev/sda") []).2 = []
    ∧ pstr "/dev/sdb" ∈ (smartLoop (fun _ => SmartOutcome.toolMissing)
        [pstr "/dev/sda", pstr "/dev/sdb"] [] []).1.map Prod.fst :=
  c5_smart_failure_nonblocking SmartOutcome.toolMissing (fun p h => SmartOutcome.noConfusion h)
    (pstr "/dev/sda") [] (fun _ => SmartOutcome.toolMissing)
    [pstr "/dev/sda", pstr "/dev/sdb"] [] (pstr "/dev/sdb") (by decide)

/-- C8: for a volume with positive total whose byte counts satisfy
used + free = total, the reported used_gb plus free_gb differs from the
reported total_gb by at most 0.01 GB. -/
theorem c8_gb_additive (uth : ℚ) (dev mp : PyStr) (total used free : ℕ)
    (hsum : used + free = total) (hpos : total ≠ 0) :
    ∃ du a, get_disk_usage uth [⟨dev, mp, UsageQuery.stat ⟨total, used, free⟩⟩] [] = .ok (du, a)
      ∧ ∀ e ∈ du, |e.2.used_gb + e.2.free_gb - e.2.total_gb| ≤ 1 / 100 := by
  refine ⟨dictInsert dev
      { mountpoint := mp
        total_gb := roundTo 2 (gb total)
        used_gb := roundTo 2 (gb used)
        free_gb := roundTo 2 (gb free)
        percent_used := roundTo 1 (((used : ℚ) / (total : ℚ)) * 100) } [],
    (if ((used : ℚ) / (total : ℚ)) * 100 > uth
      then [Alert.usageFull dev (((used : ℚ) / (total : ℚ)) * 100) uth] else []), ?_, ?_⟩
  · rw [get_disk_usage, processPartitions]
    dsimp only
    rw [if_neg hpos]
    rfl
  · intro e he
    rw [dictInsert] at he
    rw [List.mem_singleton] at he
    subst he
    dsimp only
    have hgb : gb total = gb used + gb free := by
      rw [gb, gb, gb, ← hsum]
      push_cast
      ring
    rw [hgb]
    exact roundTo_two_add (gb used) (gb free)

/-- Witness for C8: a two-byte volume split evenly. -/
theorem c8_witness :
    ∃ du a, get_disk_usage 90
        [⟨pstr "/dev/sda1", pstr "/", UsageQuery.stat ⟨2, 1, 1⟩⟩] [] = .ok (du, a)
      ∧ ∀ e ∈ du, |e.2.used_gb + e.2.free_gb - e.2.total_gb| ≤ 1 / 100 :=
  c8_gb_additive 90 (pstr "/dev/sda1") (pstr "/") 2 1 1 (by decide) (by decide)


/-- C9: in a successful run, the assembled alert list is EXACTLY the
run-entry alert list followed by the usage alerts the usage collector emits,
then the temperature alerts the temperature collector emits, then the SMART
alerts the SMART loop emits over the usage dict's keys — an identity with
the collector deltas, so emission order is preserved and nothing is
deduplicated or reordered; each delta is pure in its category.  For a
freshly constructed monitor the entry list is empty and the report is
exactly usage ++ temperature ++ smart. -/
theorem c9_alert_order (s : MonitorState) (env : Env) (r : HealthReport)
    (s' : MonitorState) (h : run_full_check s env = .ok (r, s')) :
    r.alerts = s.alerts ++ usageAlerts s.usage_threshold env.partitions
        ++ tempAlerts s.temp_threshold env.sensors
        ++ smartAlerts env.smart (r.disk_usage.map Prod.fst)
    ∧ (∀ al ∈ usageAlerts s.usage_threshold env.partitions,
        al.category = AlertCategory.usage)
    ∧ (∀ al ∈ tempAlerts s.temp_threshold env.sensors,
        al.category = AlertCategory.temperature)
    ∧ (∀ al ∈ smartAlerts env.smart (r.disk_usage.map Prod.fst),
        al.category = AlertCategory.smart) := by
  unfold run_full_check at h
  cases hdu : get_disk_usage s.usage_threshold env.partitions s.alerts with
  | error a =>
    rw [hdu] at h
    cases h
  | ok du_a =>
    obtain ⟨du, a1⟩ := du_a
    rw [hdu] at h
    dsimp only at h
    rw [Except.ok.injEq, Prod.mk.injEq] at h
    obtain ⟨hr, hs⟩ := h
    rw [get_disk_usage, processPartitions_delta] at hdu
    revert hdu
    cases hdu0 : processPartitions s.usage_threshold env.partitions [] [] with
    | error e => intro hdu; cases hdu
    | ok r0 =>
      intro hdu
      rw [Except.ok.injEq, Prod.mk.injEq] at hdu
      obtain ⟨hdu1, hdu2⟩ := hdu
      have husage : usageAlerts s.usage_threshold env.partitions = r0.2 := by
        rw [usageAlerts, hdu0]
      refine ⟨?_, ?_, ?_, ?_⟩
      · rw [← hr]
        dsimp only
        rw [get_drive_temperatures_delta, smartLoop_delta]
        dsimp only
        rw [← hdu2, husage, tempAlerts, smartAlerts]
      · intro al hal
        rw [husage] at hal
        rcases processPartitions_mem s.usage_threshold env.partitions [] []
          r0 hdu0 al hal with hmem | hcat
        · cases hmem
        · exact hcat
      · intro al hal
        rw [tempAlerts] at hal
        rcases get_drive_temperatures_mem s.temp_threshold env.sensors [] al hal with
          hmem | hcat
        · cases hmem
        · exact hcat
      · intro al hal
        rw [smartAlerts] at hal
        rcases smartLoop_mem env.smart (r.disk_usage.map Prod.fst) [] [] al hal with
          hmem | hcat
        · cases hmem
        · exact hcat

/-- Witness for C9 on a concrete run that emits one temperature alert. -/
theorem c9_witness :
    ({ timestamp := pstr "t1", disk_usage := [],
       temperatures := [(pstr "nvme0_Composite", 80)], smart_data := [],
       alerts := [Alert.overTemp (pstr "nvme0") 80 70],
       healthy := false } : HealthReport).alerts =
      ([] : List Alert) ++ usageAlerts 90 []
        ++ tempAlerts 70 (some [⟨pstr "nvme0", [⟨pstr "Composite", 80⟩]⟩])
        ++ smartAlerts (fun _ => SmartOutcome.toolMissing)
          (({ timestamp := pstr "t1", disk_usage := [],
              temperatures := [(pstr "nvme0_Composite", 80)], smart_data := [],
              alerts := [Alert.overTemp (pstr "nvme0") 80 70],
              healthy := false } : HealthReport).disk_usage.map Prod.fst)
    ∧ (∀ al ∈ usageAlerts 90 [], al.category = AlertCategory.usage)
    ∧ (∀ al ∈ tempAlerts 70 (some [⟨pstr "nvme0", [⟨pstr "Composite", 80⟩]⟩]),
        al.category = AlertCategory.temperature)
    ∧ (∀ al ∈ smartAlerts (fun _ => SmartOutcome.toolMissing)
          (({ timestamp := pstr "t1", disk_usage := [],
              temperatures := [(pstr "nvme0_Composite", 80)], smart_data := [],
              alerts := [Alert.overTemp (pstr "nvme0") 80 70],
              healthy := false } : HealthReport).disk_usage.map Prod.fst),
        al.category = AlertCategory.smart) :=
  c9_alert_order ⟨70, 90, []⟩
    ⟨[], some [⟨pstr "nvme0", [⟨pstr "Composite", 80⟩]⟩],
      fun _ => SmartOutcome.toolMissing, pstr "t1"⟩
    { timestamp := pstr "t1", disk_usage := [],
      temperatures := [(pstr "nvme0_Composite", 80)], smart_data := [],
      alerts := [Alert.overTemp (pstr "nvme0") 80 70], healthy := false }
    ⟨70, 90, [Alert.overTemp (pstr "nvme0") 80 70]⟩ (by decide)

/-- C10: the alert list is created empty at construction and never cleared:
across two successful runs of the same instance, the second report's alert
list extends the first one, and the second report cannot be healthy once the
first run raised any alert, whatever the second run's collectors see. -/
theorem c10_alerts_never_cleared (t u : ℚ) (s0 s1 s2 : MonitorState)
    (r1 r2 : HealthReport) (env1 env2 : Env) (h0 : mkMonitor t u = .ok s0)
    (h1 : run_full_check s0 env1 = .ok (r1, s1))
    (h2 : run_full_check s1 env2 = .ok (r2, s2)) :
    s0.alerts = [] ∧ (∃ rest, r2.alerts = r1.alerts ++ rest)
      ∧ (r1.alerts ≠ [] → r2.healthy = false) := by
  have hs0 : s0 = ⟨t, u, []⟩ := by
    cases h0
    rfl
  obtain ⟨hr1a, -, -, -⟩ := run_full_check_ok s0 env1 r1 s1 h1
  obtain ⟨-, hr2h, -, -⟩ := run_full_check_ok s1 env2 r2 s2 h2
  obtain ⟨u2, t2, m2, hdec, -, -, -⟩ := run_alert_decomp s1 env2 r2 s2 h2
  have hext : r2.alerts = r1.alerts ++ (u2 ++ t2 ++ m2) := by
    rw [hdec, hr1a]
    simp [List.append_assoc]
  refine ⟨by rw [hs0], ⟨u2 ++ t2 ++ m2, hext⟩, ?_⟩
  intro hne
  rw [hr2h, beq_eq_false_iff_ne]
  intro hlen
  rw [List.length_eq_zero, hext] at hlen
  exact hne (List.append_eq_nil.mp hlen).1

/-- Witness for C10: a first run raising a temperature alert followed by a
run seeing nothing; the alert survives and the second report is unhealthy. -/
theorem c10_witness :
    (⟨70, 90, []⟩ : MonitorState).alerts = []
    ∧ (∃ rest,
        ({ timestamp := pstr "t2", disk_usage := [], temperatures := [], smart_data := [],
           alerts := [Alert.overTemp (pstr "nvme0") 80 70],
           healthy := false } : HealthReport).alerts =
          ({ timestamp := pstr "t1", disk_usage := [],
             temperatures := [(pstr "nvme0_Composite", 80)], smart_data := [],
             alerts := [Alert.overTemp (pstr "nvme0") 80 70],
             healthy := false } : HealthReport).alerts ++ rest)
    ∧ (({ timestamp := pstr "t1", disk_usage := [],
          temperatures := [(pstr "nvme0_Composite", 80)], smart_data := [],
          alerts := [Alert.overTemp (pstr "nvme0") 80 70],
          healthy := false } : HealthReport).alerts ≠ [] →
        ({ timestamp := pstr "t2", disk_usage := [], temperatures := [], smart_data := [],
           alerts := [Alert.overTemp (pstr "nvme0") 80 70],
           healthy := false } : HealthReport).healthy = false) :=
  c10_alerts_never_cleared 70 90 ⟨70, 90, []⟩
    ⟨70, 90, [Alert.overTemp (pstr "nvme0") 80 70]⟩
    ⟨70, 90, [Alert.overTemp (pstr "nvme0") 80 70]⟩
    { timestamp := pstr "t1", disk_usage := [],
      temperatures := [(pstr "nvme0_Composite", 80)], smart_data := [],
      alerts := [Alert.overTemp (pstr "nvme0") 80 70], healthy := false }
    { timestamp := pstr "t2", disk_usage := [], temperatures := [], smart_data := [],
      alerts := [Alert.overTemp (pstr "nvme0") 80 70], healthy := false }
    ⟨[], some [⟨pstr "nvme0", [⟨pstr "Composite", 80⟩]⟩],
      fun _ => SmartOutcome.toolMissing, pstr "t1"⟩
    ⟨[], none, fun _ => SmartOutcome.toolMissing, pstr "t2"⟩
    rfl (by decide) (by decide)

end SSDHealth
